import Mathlib

/-!
Formal model of the golden-prompt scoring harness
(tests/golden-prompts/run_golden_checks.py).

Conventions of the shallow embedding:
* Python float values are modelled as exact rationals (ℚ); the binary
  rounding of IEEE doubles is not modelled.  Python int is ℤ.
* Text is modelled as `String`; Python whitespace (for strip / the regex
  class backslash-s) is modelled by the six ASCII whitespace characters.
  Unicode-aware casefolding of str.lower is modelled by the ASCII
  `Char.toLower` (the Korean rubric strings are unaffected by lower()).
* Only the newline character is treated as a line break (the harness
  itself splits sections on literal newlines via the (?m) regex).
* The side-effecting boundary (filesystem existence checks and the
  subprocess invocation of a preferred script) is modelled by an explicit
  `ScriptEnv` record plus a `RunOutcome` value; `json.loads` of the
  subprocess stdout is an abstract parameter `jloads : String → Option Json`.
  A `subprocess.TimeoutExpired` exception escaping a function is modelled
  by the function returning `Except.error ()`.
* Display-only formatting of numbers inside detail strings (the Python
  %.4g format and repr of floats) is rendered with `toString` on ℚ;
  no theorem depends on the text of a detail string beyond its prefix.
-/

/-- ASCII model of the Python whitespace class used by str.strip and
the regex class backslash-s. -/
def pyIsSpace (c : Char) : Bool :=
  c = ' ' || c = '\t' || c = '\n' || c = '\r' || c = '\x0b' || c = '\x0c'

/-- Model of Python str.lstrip (no arguments). -/
def pyLStrip (s : String) : String :=
  String.mk (s.data.dropWhile pyIsSpace)

/-- Model of Python str.rstrip (no arguments). -/
def pyRStrip (s : String) : String :=
  String.mk ((s.data.reverse.dropWhile pyIsSpace).reverse)

/-- Model of Python str.strip (no arguments). -/
def pyStrip (s : String) : String :=
  String.mk (((s.data.dropWhile pyIsSpace).reverse.dropWhile pyIsSpace).reverse)

/-- Model of Python str.lower (ASCII part). -/
def pyLower (s : String) : String :=
  String.mk (s.data.map Char.toLower)

/-- Helper for substring search: does the needle occur in the haystack list. -/
def hasSubstrList (needle : List Char) : List Char → Bool
  | [] => needle.isEmpty
  | c :: cs => needle.isPrefixOf (c :: cs) || hasSubstrList needle cs

/-- Model of the Python expression `needle in hay` on strings. -/
def pyContains (hay needle : String) : Bool :=
  hasSubstrList needle.data hay.data

/-- Split a character list on a separator character (model of
Python str.split with an explicit separator). -/
def splitOnChar (sep : Char) : List Char → List (List Char)
  | [] => [[]]
  | c :: rest =>
    if c = sep then [] :: splitOnChar sep rest
    else
      match splitOnChar sep rest with
      | h :: t => (c :: h) :: t
      | [] => [[c]]

/-- Split text into its newline-separated lines. -/
def splitLines (s : String) : List String :=
  (splitOnChar '\n' s.data).map String.mk

/-- Join strings with a separator (model of Python str.join). -/
def joinWith (sep : String) : List String → String
  | [] => ""
  | [x] => x
  | x :: xs => x ++ sep ++ joinWith sep xs

/-- Digits of a character list read as a natural number. -/
def digitsToNat (ds : List Char) : Nat :=
  ds.foldl (fun n c => n * 10 + (c.toNat - 48)) 0

/-- Model of Python int(token) on an already stripped string:
an optional sign followed by at least one ASCII digit. -/
def pyParseInt (s : String) : Option Int :=
  match s.data with
  | '-' :: ds => if ds ≠ [] ∧ ds.all Char.isDigit then some (-(digitsToNat ds : Int)) else none
  | '+' :: ds => if ds ≠ [] ∧ ds.all Char.isDigit then some ((digitsToNat ds : Int)) else none
  | ds => if ds ≠ [] ∧ ds.all Char.isDigit then some ((digitsToNat ds : Int)) else none

/-- Exponent part of a float literal: an optional e/E section.  Returns the
exponent value and the remaining characters (consuming nothing when the
section is absent or incomplete). -/
def matchExponent (cs : List Char) : Int × List Char :=
  match cs with
  | e :: rest =>
    if e = 'e' ∨ e = 'E' then
      match rest with
      | '+' :: r2 =>
        let d := r2.takeWhile Char.isDigit
        let r3 := r2.dropWhile Char.isDigit
        if d.isEmpty then (0, cs) else ((digitsToNat d : Int), r3)
      | '-' :: r2 =>
        let d := r2.takeWhile Char.isDigit
        let r3 := r2.dropWhile Char.isDigit
        if d.isEmpty then (0, cs) else (-(digitsToNat d : Int), r3)
      | r2 =>
        let d := r2.takeWhile Char.isDigit
        let r3 := r2.dropWhile Char.isDigit
        if d.isEmpty then (0, cs) else ((digitsToNat d : Int), r3)
    else (0, cs)
  | [] => (0, cs)

/-- Mantissa of a numeric token, following the alternation of the
NUMBER_RE regex: digits.digits, else digits, else .digits. -/
def matchMantissa (cs : List Char) : Option (ℚ × List Char) :=
  let d1 := cs.takeWhile Char.isDigit
  let r1 := cs.dropWhile Char.isDigit
  if d1.isEmpty then
    match r1 with
    | '.' :: r2 =>
      let d2 := r2.takeWhile Char.isDigit
      let r3 := r2.dropWhile Char.isDigit
      if d2.isEmpty then none
      else some ((digitsToNat d2 : ℚ) / ((10 : ℚ) ^ d2.length), r3)
    | _ => none
  else
    match r1 with
    | '.' :: r2 =>
      let d2 := r2.takeWhile Char.isDigit
      let r3 := r2.dropWhile Char.isDigit
      if d2.isEmpty then some ((digitsToNat d1 : ℚ), r1)
      else some ((digitsToNat d1 : ℚ) + (digitsToNat d2 : ℚ) / ((10 : ℚ) ^ d2.length), r3)
    | _ => some ((digitsToNat d1 : ℚ), r1)

/-- One numeric token of NUMBER_RE at the head of the input:
optional sign, mantissa, optional exponent.  Returns the value and the
rest of the input; any successful match consumes at least one character. -/
def matchNumberToken (cs : List Char) : Option (ℚ × List Char) :=
  match cs with
  | '-' :: rest =>
    match matchMantissa rest with
    | some (m, r) =>
      let er := matchExponent r
      some (-(m * (10 : ℚ) ^ er.1), er.2)
    | none => none
  | '+' :: rest =>
    match matchMantissa rest with
    | some (m, r) =>
      let er := matchExponent r
      some (m * (10 : ℚ) ^ er.1, er.2)
    | none => none
  | _ =>
    match matchMantissa cs with
    | some (m, r) =>
      let er := matchExponent r
      some (m * (10 : ℚ) ^ er.1, er.2)
    | none => none

/-- Model of NUMERIC_COMMA_RE substitution: drop a comma standing between
two digits (the lookbehind/lookahead pattern). -/
def stripNumericCommasAux : Nat → List Char → List Char
  | 0, _ => []
  | _ + 1, [] => []
  | fuel + 1, a :: t =>
    match t with
    | ',' :: b :: rest =>
      if a.isDigit ∧ b.isDigit then a :: stripNumericCommasAux fuel (b :: rest)
      else a :: stripNumericCommasAux fuel t
    | _ => a :: stripNumericCommasAux fuel t

/-- Model of the NUMERIC_COMMA_RE substitution on a whole text.  The fuel
starts at the length of the input and never runs out: every step consumes
at least one leading character. -/
def stripNumericCommas (cs : List Char) : List Char :=
  stripNumericCommasAux cs.length cs

/-- Scanner over the text collecting the non-overlapping NUMBER_RE matches,
like re.finditer.  The fuel starts at the length of the input; since every
successful token match consumes at least one character and every failure
advances by one character, this fuel is never exhausted early. -/
def scanNumbersAux : Nat → List Char → List ℚ
  | 0, _ => []
  | _ + 1, [] => []
  | fuel + 1, c :: cs =>
    match matchNumberToken (c :: cs) with
    | some (q, rest) => q :: scanNumbersAux fuel rest
    | none => scanNumbersAux fuel cs

/-- Model of _extract_numbers: normalize thousands separators, then collect
every numeric literal in the text. -/
def _extract_numbers (text : String) : List ℚ :=
  let normalized := stripNumericCommas text.data
  scanNumbersAux normalized.length normalized

/-- JSON values, as produced by json.loads on the stdout of a preferred
script (objects are association lists in document order). -/
inductive Json where
  | null : Json
  | bool (b : Bool) : Json
  | num (q : ℚ) : Json
  | str (s : String) : Json
  | arr (xs : List Json) : Json
  | obj (fields : List (String × Json)) : Json

/-- Lookup in a JSON object, the model of dict.get on a parsed object. -/
def jsonGet (fields : List (String × Json)) (k : String) : Option Json :=
  (fields.find? (fun p => p.1 == k)).map (fun p => p.2)

/-- Python truthiness of a parsed JSON value. -/
def pyTruthyJ : Json → Bool
  | Json.null => false
  | Json.bool b => b
  | Json.num q => !(q == 0)
  | Json.str s => !(s == "")
  | Json.arr xs => !xs.isEmpty
  | Json.obj fs => !fs.isEmpty

/-- Model of Python float(token) on a string: optional surrounding
whitespace and sign, digits with an optional decimal point, and an
optional exponent (inf/nan and underscores are out of scope of ℚ). -/
def pyParseFloat (s0 : String) : Option ℚ :=
  let withSign := (pyStrip s0).data
  let signed : Bool × List Char :=
    match withSign with
    | '-' :: r => (true, r)
    | '+' :: r => (false, r)
    | r => (false, r)
  let body := signed.2
  let d1 := body.takeWhile Char.isDigit
  let r1 := body.dropWhile Char.isDigit
  let mantissa : Option (ℚ × List Char) :=
    match r1 with
    | '.' :: r2 =>
      let d2 := r2.takeWhile Char.isDigit
      let r3 := r2.dropWhile Char.isDigit
      if d1.isEmpty ∧ d2.isEmpty then none
      else some ((digitsToNat d1 : ℚ) + (digitsToNat d2 : ℚ) / ((10 : ℚ) ^ d2.length), r3)
    | _ =>
      if d1.isEmpty then none else some ((digitsToNat d1 : ℚ), r1)
  match mantissa with
  | none => none
  | some (m, r) =>
    match r with
    | [] => some (if signed.1 then -m else m)
    | e :: r2 =>
      if e = 'e' ∨ e = 'E' then
        let esigned : Bool × List Char :=
          match r2 with
          | '-' :: r3 => (true, r3)
          | '+' :: r3 => (false, r3)
          | r3 => (false, r3)
        let ds := esigned.2
        if ds ≠ [] ∧ ds.all Char.isDigit then
          let ev : Int := if esigned.1 then -(digitsToNat ds : Int) else (digitsToNat ds : Int)
          let v := m * (10 : ℚ) ^ ev
          some (if signed.1 then -v else v)
        else none
      else none

/-- Model of Python float(value) applied to a parsed JSON value: numbers
pass through, booleans become 0/1, numeric strings are parsed, everything
else raises (None here). -/
def jsonToFloat : Json → Option ℚ
  | Json.num q => some q
  | Json.bool b => some (if b then 1 else 0)
  | Json.str s => pyParseFloat s
  | _ => none

/-- Truncation toward zero, the model of Python int() on a float. -/
def truncRat (q : ℚ) : Int :=
  if 0 ≤ q then ⌊q⌋ else ⌈q⌉

/-- Model of Python int(value) applied to a parsed JSON value. -/
def jsonToInt : Json → Option Int
  | Json.num q => some (truncRat q)
  | Json.bool b => some (if b then 1 else 0)
  | Json.str s => pyParseInt (pyStrip s)
  | _ => none

/-- Model of the helper _to_float: float(value) with TypeError/ValueError
turned into the default. -/
def _to_float (value : Option Json) (default : ℚ) : ℚ :=
  match value with
  | some v => (jsonToFloat v).getD default
  | none => default

/-- Model of the helper _to_int: int(value) with TypeError/ValueError
turned into the default. -/
def _to_int (value : Option Json) (default : Int) : Int :=
  match value with
  | some v => (jsonToInt v).getD default
  | none => default

/-- Model of _safe_ratio: a ratio defaulting to 1.0 on a non-positive
denominator.  The numerator is taken in ℚ because build_report passes a
float sum to the same helper. -/
def _safe_ratio (numerator : ℚ) (denominator : Int) : ℚ :=
  if denominator ≤ 0 then 1 else numerator / (denominator : ℚ)

/-- Model of _contains_any: case-insensitive containment of any needle. -/
def _contains_any (text : String) (needles : List String) : Bool :=
  needles.any (fun needle => pyContains (pyLower text) (pyLower needle))

/-- Model of _canonical_section: Python replace("##", "", 1) removes the
FIRST occurrence of "##" anywhere in the name, then strip. -/
def removeFirstHH : List Char → List Char
  | '#' :: '#' :: r => r
  | c :: r => c :: removeFirstHH r
  | [] => []

/-- Canonical form of a section name as the code computes it. -/
def _canonical_section (s : String) : String :=
  pyStrip (String.mk (removeFirstHH s.data))

/-- Round half to even on ℚ (model of the decimal rounding of Python
round; the binary-double subtleties are not modelled). -/
def roundHalfEven (q : ℚ) : Int :=
  let f := ⌊q⌋
  let r := q - (f : ℚ)
  if r < 1/2 then f
  else if 1/2 < r then f + 1
  else if f % 2 = 0 then f else f + 1

/-- Model of round(x, 4). -/
def round4 (q : ℚ) : ℚ :=
  ((roundHalfEven (q * 10000) : Int) : ℚ) / 10000

/-- The characters after a leading "##" on a line whose prefix is only
whitespace (the anchor part of a SECTION_RE match attempt). -/
def sectionHeadingTail (line : String) : Option (List Char) :=
  match line.data.dropWhile pyIsSpace with
  | '#' :: '#' :: r => some r
  | _ => none

/-- Does a SECTION_RE match begin at this line, given the lines that
follow it.  The whitespace class of the regex matches newlines, so a
line that is "##" followed only by whitespace starts a match whose
captured name sits on the NEXT non-blank line; when nothing non-blank
follows, a match still forms if at least one whitespace character beyond
the first follows the marker and is not a newline. -/
def isHeadingStartAt (line : String) (rest : List String) : Bool :=
  match sectionHeadingTail line with
  | none => false
  | some r =>
    match r with
    | c :: _ =>
      if pyIsSpace c ∧ !(pyStrip (String.mk r) == "") then true
      else if r.all pyIsSpace then
        if rest.any (fun x => !(pyStrip x == "")) then true
        else
          let tail := r ++ rest.foldr (fun b acc => '\n' :: (b.data ++ acc)) []
          decide (2 ≤ tail.length) && (tail.drop 1).any (fun ch => !(ch == '\n'))
      else false
    | [] =>
      if rest.any (fun x => !(pyStrip x == "")) then true
      else
        let tail := rest.foldr (fun b acc => '\n' :: (b.data ++ acc)) []
        decide (2 ≤ tail.length) && (tail.drop 1).any (fun ch => !(ch == '\n'))

/-- Collect body lines up to the start of the next SECTION_RE match,
returning them and the remaining lines.  Structural recursion on a fuel
argument that starts at the number of lines. -/
def collectBody : Nat → List String → List String × List String
  | 0, ls => ([], ls)
  | _ + 1, [] => ([], [])
  | fuel + 1, l :: ls =>
    if isHeadingStartAt l ls then ([], l :: ls)
    else
      let p := collectBody fuel ls
      (l :: p.1, p.2)

/-- Grouping of the lines of a response into (captured name, stripped
body) pairs in document order, the match/span structure of
parse_sections.  A normal heading line carries its own name; a heading
line with only whitespace after the marker takes the following non-blank
line as its name (the regex whitespace runs across newlines), or the
empty name when only blank lines remain.  Structural recursion on a fuel
argument; the fuel starts at the number of lines and never runs out,
since every step consumes at least the head line. -/
def sectionsOfLinesAux : Nat → List String → List (String × String)
  | 0, _ => []
  | _ + 1, [] => []
  | fuel + 1, l :: ls =>
    if !(isHeadingStartAt l ls) then sectionsOfLinesAux fuel ls
    else
      match sectionHeadingTail l with
      | none => sectionsOfLinesAux fuel ls
      | some r =>
        let isNormal := match r with
          | c :: _ => pyIsSpace c && !(pyStrip (String.mk r) == "")
          | [] => false
        if isNormal then
          let bp := collectBody ls.length ls
          (pyStrip (String.mk r), pyStrip (joinWith "\n" bp.1)) ::
            sectionsOfLinesAux fuel bp.2
        else
          match ls.dropWhile (fun x => pyStrip x == "") with
          | [] => [("", "")]
          | nameLine :: rest2 =>
            let bp := collectBody rest2.length rest2
            (pyStrip nameLine, pyStrip (joinWith "\n" bp.1)) ::
              sectionsOfLinesAux fuel bp.2

/-- Grouping of the lines of a response into (heading, stripped body)
pairs in document order. -/
def sectionsOfLines (lines : List String) : List (String × String) :=
  sectionsOfLinesAux lines.length lines

/-- Assignment into a Python dict modelled as an association list:
overwrite in place when the key is present, append otherwise. -/
def dictSet (m : List (String × String)) (k v : String) : List (String × String) :=
  if (m.find? (fun p => p.1 == k)).isSome then
    m.map (fun p => if p.1 == k then (k, v) else p)
  else m ++ [(k, v)]

/-- Lookup in the dict model. -/
def dictGet (m : List (String × String)) (k : String) : Option String :=
  (m.find? (fun p => p.1 == k)).map (fun p => p.2)

/-- Model of parse_sections: build the section dict by successive
assignments, so that a repeated heading overwrites the earlier body. -/
def parse_sections (text : String) : List (String × String) :=
  (sectionsOfLines (splitLines text)).foldl (fun m nv => dictSet m nv.1 nv.2) []

/-- Model of find_missing_sections: the canonical forms of the required
names that are absent from the stripped parsed heading names. -/
def find_missing_sections (text : String) (required_sections : List String) : List String :=
  let parsedNames := (parse_sections text).map (fun p => pyStrip p.1)
  (required_sections.filter
    (fun r => !(parsedNames.contains (_canonical_section r)))).map _canonical_section

/-- Does a line match TABLE_SEP_RE: optional whitespace, an optional pipe,
optional whitespace, an optional colon, then at least three dashes. -/
def tableSepMatch (line : String) : Bool :=
  let cs1 := line.data.dropWhile pyIsSpace
  let cs2 := match cs1 with
    | '|' :: r => r
    | _ => cs1
  let cs3 := cs2.dropWhile pyIsSpace
  let cs4 := match cs3 with
    | ':' :: r => r
    | _ => cs3
  match cs4 with
  | '-' :: '-' :: '-' :: _ => true
  | _ => false

/-- Does a line match LIST_ROW_RE: optional whitespace, a dash/star or
digits followed by a dot, then at least one whitespace character. -/
def listRowMatch (line : String) : Bool :=
  let cs := line.data.dropWhile pyIsSpace
  match cs with
  | '-' :: r =>
    match r with
    | c :: _ => pyIsSpace c
    | [] => false
  | '*' :: r =>
    match r with
    | c :: _ => pyIsSpace c
    | [] => false
  | _ =>
    let d := cs.takeWhile Char.isDigit
    let r := cs.dropWhile Char.isDigit
    decide (d ≠ []) &&
      (match r with
       | '.' :: c :: _ => pyIsSpace c
       | _ => false)

/-- Model of _count_table_rows: at least three non-blank lines, a
pipe-prefixed first line, a separator second line, then the count of
pipe-prefixed remaining lines. -/
def _count_table_rows (lines : List String) : Nat :=
  let filtered := lines.filter (fun l => !(pyStrip l == ""))
  if filtered.length < 3 then 0
  else if !((pyLStrip (filtered.headD "")).startsWith "|") then 0
  else if !(tableSepMatch (filtered.getD 1 "")) then 0
  else (filtered.drop 2).countP (fun l => (pyLStrip l).startsWith "|")

/-- The body-counting part of count_assumptions, applied to the raw body
looked up for the section named 가정: table rows, else list rows, else
non-blank lines. -/
def assumption_body_count (raw : String) : Nat :=
  let body := pyStrip raw
  if body == "" then 0
  else
    let lines := (splitLines body).map pyRStrip
    let table_count := _count_table_rows lines
    if table_count > 0 then table_count
    else
      let list_count := lines.countP listRowMatch
      if list_count > 0 then list_count
      else lines.countP (fun l => !(pyStrip l == ""))

/-- Model of count_assumptions: look up the 가정 section and count its
entries with the fallback chain. -/
def count_assumptions (text : String) : Nat :=
  assumption_body_count ((dictGet (parse_sections text) "가정").getD "")

/-- The fixed trait catalogue of check_traits: one qualitative heuristic
per known trait label, with a plain containment fallback. -/
def traitOk (text : String) (trait : String) : Bool :=
  let raw := text
  let lower := pyLower text
  if trait == "근거 없는 매직 넘버 금지" then
    _contains_any raw ["근거", "기준"] && _contains_any raw ["매직 넘버", "파라미터", "수치"]
  else if trait == "영향 지표(TTK/TTE/클리어율 등) 명시" then
    _contains_any raw ["ttk", "tte", "클리어율", "승률", "레벨업 시간"]
  else if trait == "최소 1개 이상의 로그/텔레메트리 제안" then
    _contains_any raw ["로그", "텔레메트리", "telemetry", "모니터링"]
  else if trait == "모델/파라미터 선택 이유 설명" then
    _contains_any raw ["모델", "파라미터"] && _contains_any raw ["이유", "근거", "선택"]
  else if trait == "수치 제안은 표 또는 수식 포함" then
    pyContains raw "|" || pyContains raw "$" || pyContains raw "="
  else if trait == "콘텐츠/경제 파급효과 점검" then
    _contains_any raw ["콘텐츠", "경제", "파급", "영향"]
  else if trait == "원인-대응 매핑이 명확할 것" then
    _contains_any raw ["원인", "대응", "해결 방안"]
  else if trait == "트레이드오프를 표로 비교할 것" then
    pyContains lower "트레이드오프" && pyContains raw "|"
  else if trait == "패치 후 검증 지표 제시" then
    _contains_any raw ["검증", "지표"] && _contains_any raw ["로그", "ttk", "tte", "클리어율"]
  else
    pyContains lower (pyLower trait)

/-- Model of check_traits: the matched fraction and the unmatched labels,
accumulated over the catalogue loop. -/
def check_traits (text : String) (traits : List String) : ℚ × List String :=
  let matched := traits.countP (traitOk text)
  let missing := traits.filter (fun tr => !(traitOk text tr))
  (_safe_ratio (matched : ℚ) (traits.length : Int), missing)

/-- Outcome of one subprocess.run invocation: either the 30 second timeout
expired (which raises subprocess.TimeoutExpired because check=False does
not suppress it), or the process completed with an exit code, a stdout
and a stderr. -/
inductive RunOutcome where
  | timeout : RunOutcome
  | completed (returncode : Int) (stdout : String) (stderr : String) : RunOutcome

/-- The effectful boundary of one preferred-script evaluation: whether the
script file and the validation input file exist (with their rendered
paths for detail strings), and the outcome of running the script. -/
structure ScriptEnv where
  scriptExists : Bool
  scriptPathStr : String
  inputExists : Bool
  inputPathStr : String
  outcome : RunOutcome

/-- The clamped tolerance window of one extract rule:
max(atol, abs(expected) * rtol) with the raw atol/rtol each clamped
below by zero. -/
def scriptTol (atolRaw rtolRaw expected : ℚ) : ℚ :=
  let atol := max 0 atolRaw
  let rtol := max 0 rtolRaw
  max atol (|expected| * rtol)

/-- Does any extracted response number fall within the tolerance window
of an expected value. -/
def scriptHit (atolRaw rtolRaw expected : ℚ) (nums : List ℚ) : Bool :=
  nums.any (fun value => decide (|value - expected| ≤ scriptTol atolRaw rtolRaw expected))

/-- Model of _value_at_path: descend the payload along the dotted path,
dict by key, list by integer index, refusing scalars; None on the errors
the code raises (KeyError / IndexError). -/
def _value_at_path (payload : Json) (path : String) : Option Json :=
  ((splitOnChar '.' path.data).map String.mk).foldl
    (fun cur rawToken =>
      match cur with
      | none => none
      | some current =>
        let token := pyStrip rawToken
        if token == "" then some current
        else
          match current with
          | Json.obj fields => jsonGet fields token
          | Json.arr xs =>
            match pyParseInt token with
            | some idx =>
              if idx < 0 ∨ (xs.length : Int) ≤ idx then none
              else xs.get? idx.toNat
            | none => none
          | _ => none)
    (some payload)

/-- Display rendering of a rational inside a detail string (stands in for
the %.4g formatting of the Python code; display only). -/
def ratRepr (q : ℚ) : String := toString q

/-- Rendering of a parsed JSON value under Python str() (display only;
used for the name default of an extract rule). -/
def pyStrJ : Json → String
  | Json.str s => s
  | Json.num q => ratRepr q
  | Json.bool b => if b then "True" else "False"
  | Json.null => "None"
  | Json.arr _ => "[...]"
  | Json.obj _ => "{...}"

/-- The body of the extract-rule loop of evaluate_script_numeric_checks,
folded over the enumerated rules: accumulates the matched count and the
missing descriptions. -/
def evalRules (payload : Json) (nums : List ℚ) (rules : List Json) : Int × List String :=
  rules.enum.foldl
    (fun acc ir =>
      let idx := ir.1 + 1
      match ir.2 with
      | Json.obj fields =>
        let pathValue :=
          match jsonGet fields "path" with
          | some v => if pyTruthyJ v then some v else jsonGet fields "json_path"
          | none => jsonGet fields "json_path"
        match pathValue with
        | some (Json.str p) =>
          if pyStrip p == "" then
            (acc.1, acc.2 ++ ["rule#" ++ toString idx ++ ":missing_path"])
          else
            let name := match jsonGet fields "name" with
              | some v => pyStrJ v
              | none => p
            match (_value_at_path payload p).bind jsonToFloat with
            | none => (acc.1, acc.2 ++ [name ++ ":path_error"])
            | some expected =>
              let atolRaw := _to_float (jsonGet fields "atol") 0
              let rtolRaw := _to_float (jsonGet fields "rtol") (2/100)
              if scriptHit atolRaw rtolRaw expected nums then (acc.1 + 1, acc.2)
              else
                (acc.1, acc.2 ++
                  [name ++ "≈" ++ ratRepr expected ++ "±" ++
                    ratRepr (scriptTol atolRaw rtolRaw expected)])
        | some _ => (acc.1, acc.2 ++ ["rule#" ++ toString idx ++ ":missing_path"])
        | none => (acc.1, acc.2 ++ ["rule#" ++ toString idx ++ ":missing_path"])
      | _ => (acc.1, acc.2 ++ ["rule#" ++ toString idx ++ ":invalid_rule"]))
    (0, [])

/-- The missing-rules suffix of the detail string. -/
def missingSuffix (missing : List String) : String :=
  if missing.isEmpty then ""
  else
    "; missing: " ++ joinWith ", " (missing.take 6) ++
      (if 6 < missing.length then " ..." else "")

/-- Model of evaluate_script_numeric_checks.  The filesystem checks and
the subprocess outcome come from the environment; json.loads is the
abstract jloads.  Every failure is returned as a scored triple except the
subprocess timeout, which the Python code does not catch: that case is
Except.error, the model of the TimeoutExpired exception escaping. -/
def evaluate_script_numeric_checks (response : String) (preferred_script : String)
    (validation : List (String × Json)) (env : ScriptEnv)
    (jloads : String → Option Json) : Except Unit (ℚ × Bool × String) :=
  if !env.scriptExists then
    Except.ok (0, false, "script_not_found: " ++ env.scriptPathStr)
  else
    match jsonGet validation "input" with
    | some (Json.str input_rel) =>
      if pyStrip input_rel == "" then Except.ok (0, false, "invalid_script_validation_input")
      else if !env.inputExists then
        Except.ok (0, false, "input_not_found: " ++ env.inputPathStr)
      else
        match jsonGet validation "extract" with
        | some (Json.arr extractRules) =>
          if extractRules.isEmpty then
            Except.ok (0, false, "invalid_script_validation_extract")
          else
            match env.outcome with
            | RunOutcome.timeout => Except.error ()
            | RunOutcome.completed returncode stdoutRaw stderrRaw =>
              if returncode ≠ 0 then
                Except.ok (0, false,
                  "script_exit_" ++ toString returncode ++ ": " ++ pyStrip stderrRaw)
              else if pyStrip stdoutRaw == "" then
                Except.ok (0, false, "script_empty_stdout")
              else
                match jloads (pyStrip stdoutRaw) with
                | none => Except.ok (0, false, "script_invalid_json: <decode error>")
                | some payload =>
                  if (_extract_numbers response).isEmpty then
                    Except.ok (0, false, "no_numeric_values_in_response")
                  else
                    let mm := evalRules payload (_extract_numbers response) extractRules
                    let matched := mm.1
                    let missing := mm.2
                    let total : Int := extractRules.length
                    let min_matches := min (max 0 (_to_int (jsonGet validation "min_matches") total)) total
                    let score := _safe_ratio (matched : ℚ) total
                    let passed := decide (min_matches ≤ matched)
                    let details := "matched " ++ toString matched ++ "/" ++ toString total ++
                      " (min " ++ toString min_matches ++ ")" ++ missingSuffix missing
                    Except.ok (score, passed, details)
        | some _ => Except.ok (0, false, "invalid_script_validation_extract")
        | none => Except.ok (0, false, "invalid_script_validation_extract")
    | _ => Except.ok (0, false, "invalid_script_validation_input")

/-- One rubric case, with the fields score_case reads (string coercion of
the loaded fields is done by the loader, outside the core). -/
structure Case where
  id : String
  title : String
  category : String
  required_keywords : List String
  required_references : List String
  preferred_script : Option String
  script_validation : Option Json

/-- One response template: the structural requirements shared by cases. -/
structure Template where
  required_sections : List String
  max_assumptions : Int
  required_traits : List String

/-- One named sub-check of a case. -/
structure CheckResult where
  name : String
  score : ℚ
  passed : Bool
  details : String
deriving DecidableEq

/-- The scored result of one case. -/
structure CaseResult where
  id : String
  title : String
  category : String
  score : ℚ
  passed : Bool
  skipped : Bool
  hard_fail_reasons : List String
  checks : List CheckResult
deriving DecidableEq

/-- Truthiness of the optional preferred_script field (None or the empty
string are falsy). -/
def psTruthy : Option String → Bool
  | none => false
  | some s => !(s == "")

/-- The DEFAULT_WEIGHTS table (total function; score_case only ever looks
up the six metric names that it itself inserts). -/
def DEFAULT_WEIGHTS (name : String) : ℚ :=
  if name == "sections" then 35/100
  else if name == "assumptions" then 10/100
  else if name == "keywords" then 20/100
  else if name == "references" then 20/100
  else if name == "traits" then 10/100
  else if name == "preferred_script" then 5/100
  else 0

/-- The missing required sections of a response (score_case line for
missing_sections). -/
def sections_missing (t : Template) (response : String) : List String :=
  find_missing_sections response t.required_sections

/-- The sections check score. -/
def sections_score (t : Template) (response : String) : ℚ :=
  _safe_ratio (((t.required_sections.length : Int) - ((sections_missing t response).length : Int) : Int) : ℚ)
    (t.required_sections.length : Int)

/-- The sections check pass flag. -/
def sections_pass (t : Template) (response : String) : Bool :=
  (sections_missing t response).length == 0

/-- The assumptions check pass flag: count within the template ceiling. -/
def assumptions_pass (t : Template) (response : String) : Bool :=
  decide ((count_assumptions response : Int) ≤ t.max_assumptions)

/-- The assumptions check score: all or nothing. -/
def assumptions_score (t : Template) (response : String) : ℚ :=
  if assumptions_pass t response then 1 else 0

/-- The required keywords absent from the response (case-insensitive). -/
def keywords_missing (c : Case) (response : String) : List String :=
  c.required_keywords.filter (fun kw => !(pyContains (pyLower response) (pyLower kw)))

/-- The keywords check score. -/
def keywords_score (c : Case) (response : String) : ℚ :=
  _safe_ratio (((c.required_keywords.length : Int) - ((keywords_missing c response).length : Int) : Int) : ℚ)
    (c.required_keywords.length : Int)

/-- The keywords check pass flag. -/
def keywords_pass (c : Case) (response : String) : Bool :=
  (keywords_missing c response).length == 0

/-- The required references absent from the response (case-insensitive). -/
def references_missing (c : Case) (response : String) : List String :=
  c.required_references.filter (fun r => !(pyContains (pyLower response) (pyLower r)))

/-- The references check score. -/
def references_score (c : Case) (response : String) : ℚ :=
  _safe_ratio (((c.required_references.length : Int) - ((references_missing c response).length : Int) : Int) : ℚ)
    (c.required_references.length : Int)

/-- The references check pass flag. -/
def references_pass (c : Case) (response : String) : Bool :=
  (references_missing c response).length == 0

/-- The traits check score. -/
def traits_score (t : Template) (response : String) : ℚ :=
  (check_traits response t.required_traits).1

/-- The unmatched trait labels. -/
def missing_traits (t : Template) (response : String) : List String :=
  (check_traits response t.required_traits).2

/-- The traits check pass flag. -/
def traits_pass (t : Template) (response : String) : Bool :=
  (missing_traits t response).length == 0

/-- The script part of score_case (its lines guarded by preferred_script):
None when no truthy preferred script is declared; otherwise, either the
numeric validation triple from evaluate_script_numeric_checks (when
script_validation is a mapping), or the weaker mention-check triple.
Except.error propagates the uncaught subprocess timeout. -/
def script_eval (c : Case) (response : String) (env : ScriptEnv)
    (jloads : String → Option Json) : Except Unit (Option (ℚ × Bool × String)) :=
  match c.preferred_script with
  | none => Except.ok none
  | some ps =>
    if ps == "" then Except.ok none
    else
      match c.script_validation with
      | some (Json.obj fields) =>
        match evaluate_script_numeric_checks response ps fields env jloads with
        | Except.error e => Except.error e
        | Except.ok triple => Except.ok (some triple)
      | _ =>
        let script_pass := pyContains (pyLower response) (pyLower ps)
        Except.ok (some
          (if script_pass then 1 else 0, script_pass,
           if script_pass then "mentioned " ++ ps else "missing mention: " ++ ps))

/-- The metric_scores mapping of score_case, in insertion order; the
preferred_script entry is present exactly when a script triple exists. -/
def case_metrics (c : Case) (t : Template) (response : String)
    (scriptPart : Option (ℚ × Bool × String)) : List (String × ℚ) :=
  [("sections", sections_score t response),
   ("assumptions", assumptions_score t response),
   ("keywords", keywords_score c response),
   ("references", references_score c response),
   ("traits", traits_score t response)] ++
  (match scriptPart with
   | some triple => [("preferred_script", triple.1)]
   | none => [])

/-- The weighted aggregation loop of score_case: total weight and weighted
sum over the present metrics, then their ratio (zero on an empty mass). -/
def aggregate_score (metric_scores : List (String × ℚ)) : ℚ :=
  let total_weight := metric_scores.foldl (fun acc p => acc + DEFAULT_WEIGHTS p.1) 0
  let weighted_sum := metric_scores.foldl (fun acc p => acc + DEFAULT_WEIGHTS p.1 * p.2) 0
  if 0 < total_weight then weighted_sum / total_weight else 0

/-- The pass flag of the script triple, with Python bool(None) = False. -/
def scriptPassBool : Option (ℚ × Bool × String) → Bool
  | some triple => triple.2.1
  | none => false

/-- The hard-fail reason list of score_case, in construction order. -/
def case_hard_fail (c : Case) (t : Template) (response : String)
    (scriptPart : Option (ℚ × Bool × String)) : List String :=
  (if sections_pass t response then [] else ["missing_required_sections"]) ++
  (if assumptions_pass t response then [] else ["assumptions_out_of_range"]) ++
  (if psTruthy c.preferred_script && c.script_validation.isSome &&
      !(scriptPassBool scriptPart) then ["preferred_script_numeric_mismatch"] else [])

/-- The raw (unrounded) weighted case score, as computed by the
aggregation lines of score_case, for a case that has a response. -/
def case_raw_score (c : Case) (t : Template) (response : String) (env : ScriptEnv)
    (jloads : String → Option Json) : Except Unit ℚ :=
  match script_eval c response env jloads with
  | Except.error e => Except.error e
  | Except.ok scriptPart => Except.ok (aggregate_score (case_metrics c t response scriptPart))

/-- The checks list of a scored case. -/
def case_checks (c : Case) (t : Template) (response : String)
    (scriptPart : Option (ℚ × Bool × String)) : List CheckResult :=
  [{ name := "sections", score := round4 (sections_score t response),
     passed := sections_pass t response,
     details := if (sections_missing t response).isEmpty then "all required sections present"
       else "missing: " ++ joinWith ", " (sections_missing t response) },
   { name := "assumptions", score := round4 (assumptions_score t response),
     passed := assumptions_pass t response,
     details := "count=" ++ toString (count_assumptions response) ++
       ", max=" ++ toString t.max_assumptions },
   { name := "keywords", score := round4 (keywords_score c response),
     passed := keywords_pass c response,
     details := if (keywords_missing c response).isEmpty then "all keywords present"
       else "missing: " ++ joinWith ", " (keywords_missing c response) },
   { name := "references", score := round4 (references_score c response),
     passed := references_pass c response,
     details := if (references_missing c response).isEmpty then "all references present"
       else "missing: " ++ joinWith ", " (references_missing c response) },
   { name := "traits", score := round4 (traits_score t response),
     passed := traits_pass t response,
     details := if (missing_traits t response).isEmpty then "all traits passed"
       else "missing: " ++ joinWith ", " (missing_traits t response) }] ++
  (match scriptPart with
   | some triple =>
     [{ name := if c.script_validation.isSome then "preferred_script_numeric" else "preferred_script",
        score := round4 triple.1, passed := triple.2.1, details := triple.2.2 }]
   | none => [])

/-- The pure tail of score_case once the response exists and the script
part has been evaluated. -/
def score_case_scored (c : Case) (t : Template) (response : String) (min_case_score : ℚ)
    (scriptPart : Option (ℚ × Bool × String)) : CaseResult :=
  let score := aggregate_score (case_metrics c t response scriptPart)
  let hard_fail_reasons := case_hard_fail c t response scriptPart
  { id := c.id, title := c.title, category := c.category,
    score := round4 score,
    passed := decide (min_case_score ≤ score) && hard_fail_reasons.isEmpty,
    skipped := false,
    hard_fail_reasons := hard_fail_reasons,
    checks := case_checks c t response scriptPart }

/-- Model of score_case.  A missing response produces the skipped or
hard-failed placeholder result; otherwise the checks are computed (the
Except.error case propagates the uncaught subprocess timeout). -/
def score_case (c : Case) (t : Template) (response : Option String) (min_case_score : ℚ)
    (allow_missing_cases : Bool) (env : ScriptEnv)
    (jloads : String → Option Json) : Except Unit CaseResult :=
  match response with
  | none =>
    let skipped := allow_missing_cases
    let hard_fail := !skipped
    Except.ok
      { id := c.id, title := c.title, category := c.category,
        score := 0, passed := false, skipped := skipped,
        hard_fail_reasons := if hard_fail then ["missing_response"] else [],
        checks :=
          [{ name := "response_presence", score := 0, passed := false,
             details := if hard_fail then "No response provided for this case."
               else "No response provided; skipped." }] }
  | some response =>
    match script_eval c response env jloads with
    | Except.error e => Except.error e
    | Except.ok scriptPart =>
      Except.ok (score_case_scored c t response min_case_score scriptPart)

/-- One entry of the batch health-check results. -/
structure ScriptResult where
  script : String
  path : String
  passed : Bool
  details : String
deriving DecidableEq

/-- The aggregate batch health-check record. -/
structure ScriptChecks where
  enabled : Bool
  score : ℚ
  passed : Bool
  total : Nat
  passed_count : Nat
  results : List ScriptResult
deriving DecidableEq

/-- The loop body of execute_preferred_scripts for one distinct script:
a missing file, a non-zero exit, empty stdout or invalid JSON each yield
a failed entry; the subprocess timeout raises (Except.error). -/
def runOneScript (script : String) (env : ScriptEnv)
    (jloads : String → Option Json) : Except Unit ScriptResult :=
  if !env.scriptExists then
    Except.ok
      { script := script, path := env.scriptPathStr, passed := false,
        details := "file_not_found" }
  else
    match env.outcome with
    | RunOutcome.timeout => Except.error ()
    | RunOutcome.completed returncode stdoutRaw stderrRaw =>
      if returncode ≠ 0 then
        Except.ok
          { script := script, path := env.scriptPathStr, passed := false,
            details := "exit=" ++ toString returncode ++ ": " ++ pyStrip stderrRaw }
      else if pyStrip stdoutRaw == "" then
        Except.ok
          { script := script, path := env.scriptPathStr, passed := false,
            details := "empty_stdout" }
      else
        match jloads (pyStrip stdoutRaw) with
        | none =>
          Except.ok
            { script := script, path := env.scriptPathStr, passed := false,
              details := "invalid_json_output: <decode error>" }
        | some _ =>
          Except.ok
            { script := script, path := env.scriptPathStr, passed := true,
              details := "ok" }

/-- The dedup loop of execute_preferred_scripts: the distinct truthy
preferred_script names in first-appearance order. -/
def preferredScripts (cases : List Case) : List String :=
  cases.foldl
    (fun acc c =>
      match c.preferred_script with
      | some v => if !(v == "") && !(acc.contains v) then acc ++ [v] else acc
      | none => acc)
    []

/-- The health-check loop over the distinct scripts, propagating the
uncaught timeout exception out of the loop. -/
def collectScriptResults (scripts : List String) (benv : String → ScriptEnv)
    (jloads : String → Option Json) : Except Unit (List ScriptResult) :=
  match scripts with
  | [] => Except.ok []
  | s :: rest =>
    match runOneScript s (benv s) jloads with
    | Except.error e => Except.error e
    | Except.ok r =>
      match collectScriptResults rest benv jloads with
      | Except.error e => Except.error e
      | Except.ok rs => Except.ok (r :: rs)

/-- Model of execute_preferred_scripts: run every distinct preferred
script once and summarize. -/
def execute_preferred_scripts (cases : List Case) (benv : String → ScriptEnv)
    (jloads : String → Option Json) : Except Unit ScriptChecks :=
  match collectScriptResults (preferredScripts cases) benv jloads with
  | Except.error e => Except.error e
  | Except.ok results =>
    let passed_count := results.countP (fun item => item.passed)
    let total := results.length
    Except.ok
      { enabled := true,
        score := round4 (_safe_ratio (passed_count : ℚ) (total : Int)),
        passed := passed_count == total,
        total := total, passed_count := passed_count, results := results }

/-- The suite summary slice of build_report. -/
structure Summary where
  cases_total : Nat
  cases_evaluated : Nat
  cases_passed : Nat
  suite_score : ℚ
deriving DecidableEq

/-- The summary computation of build_report: evaluated cases are the
non-skipped ones; they alone feed cases_passed and the suite score mean. -/
def summarize (case_results : List CaseResult) : Summary :=
  let evaluated_cases := case_results.filter (fun item => !item.skipped)
  let evaluated_total := evaluated_cases.length
  { cases_total := case_results.length,
    cases_evaluated := evaluated_total,
    cases_passed := (evaluated_cases.filter (fun item => item.passed)).length,
    suite_score :=
      if 0 < evaluated_total then
        _safe_ratio ((evaluated_cases.map (fun item => item.score)).foldl (fun a b => a + b) 0)
          (evaluated_total : Int)
      else 0 }

/-- Does an Except carry a success value (no exception escaped). -/
def isOkE {α : Type} : Except Unit α → Bool
  | Except.ok _ => true
  | Except.error _ => false

/-- Unwrap an Except with a default (used only to state closed facts
about concrete runs). -/
def okD {α : Type} (d : α) : Except Unit α → α
  | Except.ok a => a
  | Except.error _ => d

/-- A default case result for okD. -/
def dummyCaseResult : CaseResult :=
  { id := "", title := "", category := "", score := 0, passed := false,
    skipped := false, hard_fail_reasons := [], checks := [] }

/-- Claim-side description of the dict semantics of parse_sections: the
body of the LAST heading with a given name, none when the name never
occurs among the grouped sections. -/
def lastAssign (l : List (String × String)) (k : String) : Option String :=
  match l with
  | [] => none
  | nv :: rest =>
    match lastAssign rest k with
    | some v => some v
    | none => if nv.1 == k then some nv.2 else none

/-- Canonical section name as the SPEC words it: only a LEADING "##"
prefix is stripped, then surrounding whitespace is trimmed.  This is the
comparison definition for the refinement claim about
find_missing_sections; the code version is _canonical_section. -/
def _canonical_section_spec (s : String) : String :=
  pyStrip (if s.startsWith "##" then s.drop 2 else s)

/-- find_missing_sections as the spec words it, built on the
leading-prefix canonical form; comparison definition only. -/
def find_missing_sections_spec (text : String) (required_sections : List String) : List String :=
  let parsedNames := (parse_sections text).map (fun p => pyStrip p.1)
  (required_sections.filter
    (fun r => !(parsedNames.contains (_canonical_section_spec r)))).map _canonical_section_spec

/-- A json.loads stand-in that recognizes no document (fine for runs that
never reach JSON parsing). -/
def jlNone : String → Option Json := fun _ => none

/-- An environment in which the preferred script file does not exist. -/
def envAbsent : ScriptEnv :=
  { scriptExists := false, scriptPathStr := "/repo/skills/game-balance-math/scripts/nope.py",
    inputExists := false, inputPathStr := "/suite/x.json", outcome := RunOutcome.timeout }

/-- An environment in which everything exists and the subprocess timed
out (subprocess.run raises TimeoutExpired there). -/
def envTimeout : ScriptEnv :=
  { scriptExists := true, scriptPathStr := "/repo/skills/game-balance-math/scripts/s.py",
    inputExists := true, inputPathStr := "/suite/in.json",
    outcome := RunOutcome.timeout }

/-- An environment in which the subprocess completed with exit code 1. -/
def envExitOne : ScriptEnv :=
  { scriptExists := true, scriptPathStr := "/repo/skills/game-balance-math/scripts/s.py",
    inputExists := true, inputPathStr := "/suite/in.json",
    outcome := RunOutcome.completed 1 "" " boom " }

/-- A case with no requirements and no preferred script. -/
def caseEmpty : Case :=
  { id := "A01", title := "", category := "", required_keywords := [],
    required_references := [], preferred_script := none, script_validation := none }

/-- A well-formed script validation mapping with one extract rule. -/
def validationA : List (String × Json) :=
  [("input", Json.str "x.json"), ("extract", Json.arr [Json.obj [("path", Json.str "a")]])]

/-- The same case with a preferred script and a numeric validation. -/
def caseScripted : Case :=
  { caseEmpty with
    preferred_script := some "nope.py",
    script_validation := some (Json.obj validationA) }

/-- A template with no requirements and the default assumption ceiling. -/
def templEmpty : Template :=
  { required_sections := [], max_assumptions := 3, required_traits := [] }

/-- A skipped case result (for the suite-aggregation witness). -/
def crSkipped : CaseResult :=
  { id := "S", title := "", category := "", score := 0, passed := false,
    skipped := true, hard_fail_reasons := [], checks := [] }

/-- An evaluated passing case result (for the suite-aggregation witness). -/
def crPassing : CaseResult :=
  { id := "P", title := "", category := "", score := 9/10, passed := true,
    skipped := false, hard_fail_reasons := [], checks := [] }

/-- A concrete response whose 가정 section is a two-data-row table,
with list rows elsewhere. -/
def tableResponse : String :=
  "intro\n## 가정\n| n | v |\n|---|---|\n| 1 | 2 |\n| 3 | 4 |\n## 기타\n- item"

/-! Theorems about the model. -/

theorem find?_overwrite (m : List (String × String)) (k v k2 : String) (hne : k2 ≠ k) :
    (m.map (fun p => if p.1 == k then (k, v) else p)).find? (fun p => p.1 == k2)
      = m.find? (fun p => p.1 == k2) := by
  induction m with
  | nil => rfl
  | cons p m ih =>
    rw [List.map_cons, List.find?_cons, List.find?_cons]
    by_cases hpk : p.1 = k
    · have hif : (if (p.1 == k) = true then (k, v) else p) = (k, v) := by simp [hpk]
      have h1 : ((k, v).1 == k2) = false := by simp [Ne.symm hne]
      have h2 : (p.1 == k2) = false := by simp [hpk, Ne.symm hne]
      rw [hif, h1, h2]
      exact ih
    · have hif : (if (p.1 == k) = true then (k, v) else p) = p := by simp [hpk]
      rw [hif]
      cases h2 : (p.1 == k2) with
      | false => simp only [ih]
      | true => rfl

theorem find?_overwrite_self (m : List (String × String)) (k v : String)
    (hsome : (m.find? (fun p => p.1 == k)).isSome = true) :
    (m.map (fun p => if p.1 == k then (k, v) else p)).find? (fun p => p.1 == k)
      = some (k, v) := by
  induction m with
  | nil => simp [List.find?] at hsome
  | cons p m ih =>
    rw [List.map_cons, List.find?_cons]
    by_cases hpk : p.1 = k
    · have hif : (if (p.1 == k) = true then (k, v) else p) = (k, v) := by simp [hpk]
      have h1 : ((k, v).1 == k) = true := by simp
      rw [hif, h1]
    · have hif : (if (p.1 == k) = true then (k, v) else p) = p := by simp [hpk]
      have h1 : (p.1 == k) = false := by simp [hpk]
      have hrest : (m.find? (fun p => p.1 == k)).isSome = true := by
        rw [List.find?_cons, h1] at hsome
        exact hsome
      rw [hif, h1]
      exact ih hrest

theorem dictGet_dictSet (m : List (String × String)) (k v k2 : String) :
    dictGet (dictSet m k v) k2 = if k2 = k then some v else dictGet m k2 := by
  unfold dictSet dictGet
  by_cases hsome : (m.find? (fun p => p.1 == k)).isSome = true
  · rw [if_pos hsome]
    by_cases hk : k2 = k
    · subst hk
      rw [find?_overwrite_self m k2 v hsome]
      simp
    · rw [find?_overwrite m k v k2 hk]
      simp [hk]
  · rw [if_neg hsome]
    rw [List.find?_append]
    by_cases hk : k2 = k
    · subst hk
      have hnone : m.find? (fun p => p.1 == k2) = none := by
        cases hfind : m.find? (fun p => p.1 == k2) with
        | none => rfl
        | some a => rw [hfind] at hsome; simp at hsome
      simp [hnone, List.find?]
    · have h1 : ((k, v).1 == k2) = false := by simp [Ne.symm hk]
      simp only [List.find?_cons, h1, List.find?_nil]
      cases hfind : m.find? (fun p => p.1 == k2) <;> simp [hk]

theorem dictGet_foldl (l : List (String × String)) (m0 : List (String × String)) (k : String) :
    dictGet (l.foldl (fun m nv => dictSet m nv.1 nv.2) m0) k
      = match lastAssign l k with
        | some v => some v
        | none => dictGet m0 k := by
  induction l generalizing m0 with
  | nil => rfl
  | cons nv l ih =>
    simp only [List.foldl_cons, lastAssign]
    rw [ih]
    cases h : lastAssign l k with
    | some v => simp
    | none =>
      rw [dictGet_dictSet]
      by_cases hk : k = nv.1
      · simp [hk]
      · have hb : (nv.1 == k) = false := by simp [Ne.symm hk]
        simp [hk, hb]

/-- C10: in parse_sections, a later level-2 heading with the same trimmed
name overwrites the earlier one, so the returned mapping holds exactly the
body of the LAST such heading; consequently count_assumptions counts
entries only in the body of the last 가정 section. -/
theorem parse_sections_last_heading_wins (text : String) :
    (∀ name, dictGet (parse_sections text) name
        = lastAssign (sectionsOfLines (splitLines text)) name)
    ∧ count_assumptions text
        = assumption_body_count
            ((lastAssign (sectionsOfLines (splitLines text)) "가정").getD "") := by
  constructor
  · intro name
    unfold parse_sections
    rw [dictGet_foldl]
    cases h : lastAssign (sectionsOfLines (splitLines text)) name with
    | some v => rfl
    | none => rfl
  · unfold count_assumptions parse_sections
    rw [dictGet_foldl]
    cases h : lastAssign (sectionsOfLines (splitLines text)) "가정" with
    | some v => rfl
    | none => rfl

theorem safe_ratio_le_one (n : ℚ) (d : Int) (h : n ≤ (d : ℚ)) : _safe_ratio n d ≤ 1 := by
  unfold _safe_ratio
  split
  · exact le_refl 1
  · rename_i hd
    have hd2 : (0 : ℚ) < (d : ℚ) := by exact_mod_cast lt_of_not_le hd
    rw [div_le_one hd2]
    exact h

theorem safe_ratio_nonneg (n : ℚ) (d : Int) (h : 0 ≤ n) : 0 ≤ _safe_ratio n d := by
  unfold _safe_ratio
  split
  · norm_num
  · rename_i hd
    have hd2 : (0 : ℚ) ≤ (d : ℚ) := by exact_mod_cast le_of_lt (lt_of_not_le hd)
    exact div_nonneg h hd2

theorem find_missing_sections_length_le (text : String) (req : List String) :
    (find_missing_sections text req).length ≤ req.length := by
  unfold find_missing_sections
  rw [List.length_map]
  exact List.length_filter_le _ _

theorem sections_score_bounds (t : Template) (resp : String) :
    0 ≤ sections_score t resp ∧ sections_score t resp ≤ 1 := by
  have hle := find_missing_sections_length_le resp t.required_sections
  unfold sections_score sections_missing
  constructor
  · apply safe_ratio_nonneg
    have : ((find_missing_sections resp t.required_sections).length : ℚ)
        ≤ (t.required_sections.length : ℚ) := by exact_mod_cast hle
    push_cast
    linarith
  · apply safe_ratio_le_one
    push_cast
    have : (0 : ℚ) ≤ ((find_missing_sections resp t.required_sections).length : ℚ) := by positivity
    linarith

theorem keywords_score_bounds (c : Case) (resp : String) :
    0 ≤ keywords_score c resp ∧ keywords_score c resp ≤ 1 := by
  have hle : (keywords_missing c resp).length ≤ c.required_keywords.length :=
    List.length_filter_le _ _
  unfold keywords_score
  constructor
  · apply safe_ratio_nonneg
    have : ((keywords_missing c resp).length : ℚ) ≤ (c.required_keywords.length : ℚ) := by
      exact_mod_cast hle
    push_cast
    linarith
  · apply safe_ratio_le_one
    push_cast
    have : (0 : ℚ) ≤ ((keywords_missing c resp).length : ℚ) := by positivity
    linarith

theorem references_score_bounds (c : Case) (resp : String) :
    0 ≤ references_score c resp ∧ references_score c resp ≤ 1 := by
  have hle : (references_missing c resp).length ≤ c.required_references.length :=
    List.length_filter_le _ _
  unfold references_score
  constructor
  · apply safe_ratio_nonneg
    have : ((references_missing c resp).length : ℚ) ≤ (c.required_references.length : ℚ) := by
      exact_mod_cast hle
    push_cast
    linarith
  · apply safe_ratio_le_one
    push_cast
    have : (0 : ℚ) ≤ ((references_missing c resp).length : ℚ) := by positivity
    linarith

theorem assumptions_score_bounds (t : Template) (resp : String) :
    0 ≤ assumptions_score t resp ∧ assumptions_score t resp ≤ 1 := by
  unfold assumptions_score
  split <;> norm_num

theorem traits_score_bounds (t : Template) (resp : String) :
    0 ≤ traits_score t resp ∧ traits_score t resp ≤ 1 := by
  have hle : t.required_traits.countP (traitOk resp) ≤ t.required_traits.length :=
    List.countP_le_length _
  unfold traits_score check_traits
  constructor
  · apply safe_ratio_nonneg
    positivity
  · apply safe_ratio_le_one
    exact_mod_cast hle

theorem script_eval_no_script (c : Case) (resp : String) (env : ScriptEnv)
    (jl : String → Option Json) (hps : psTruthy c.preferred_script = false) :
    script_eval c resp env jl = Except.ok none := by
  unfold script_eval
  unfold psTruthy at hps
  cases hcs : c.preferred_script with
  | none => rfl
  | some s =>
    rw [hcs] at hps
    simp only [Bool.not_eq_false'] at hps
    simp [hps]

/-- C1 counterexample: a case with a response, no preferred script, and
every requirement list empty has weighted score exactly 1.0 (all five
checks score 1.0 and the 0.95 weight mass cancels in the division), so
the score is NOT bounded above by the evaluated weight mass 0.95. -/
theorem no_script_score_reaches_one :
    okD 0 (case_raw_score caseEmpty templEmpty "hello" envAbsent jlNone) = 1 ∧
    ¬(okD 0 (case_raw_score caseEmpty templEmpty "hello" envAbsent jlNone) ≤ 95/100) ∧
    (okD dummyCaseResult
      (score_case caseEmpty templEmpty (some "hello") (8/10) false envAbsent jlNone)).score = 1 := by
  refine ⟨by with_unfolding_all decide, by with_unfolding_all decide, by with_unfolding_all decide⟩

/-- C1 amended: for a case with a response and no truthy preferred
script, the weighted aggregate score equals the weighted sum of the five
check scores divided by the evaluated weight mass 0.95 (so the dropped
script weight is cancelled by the denominator), and it is bounded above
by 1.0 — it reaches exactly 1.0 when all five checks score 1.0, rather
than staying at or below 0.95. -/
theorem no_script_weighted_score (c : Case) (t : Template) (resp : String) (m : ℚ)
    (allow : Bool) (env : ScriptEnv) (jl : String → Option Json) (r : CaseResult)
    (hps : psTruthy c.preferred_script = false)
    (hok : score_case c t (some resp) m allow env jl = Except.ok r) :
    r.score = round4 (aggregate_score (case_metrics c t resp none)) ∧
    aggregate_score (case_metrics c t resp none) =
      (35/100 * sections_score t resp + 10/100 * assumptions_score t resp +
       20/100 * keywords_score c resp + 20/100 * references_score c resp +
       10/100 * traits_score t resp) / (95/100) ∧
    aggregate_score (case_metrics c t resp none) ≤ 1 := by
  have hse := script_eval_no_script c resp env jl hps
  have hok2 : (match script_eval c resp env jl with
      | Except.error e => Except.error e
      | Except.ok scriptPart => Except.ok (score_case_scored c t resp m scriptPart))
      = Except.ok r := hok
  rw [hse] at hok2
  have hr : r = score_case_scored c t resp m none := by
    injection hok2 with h
    exact h.symm
  have hformula : aggregate_score (case_metrics c t resp none) =
      (35/100 * sections_score t resp + 10/100 * assumptions_score t resp +
       20/100 * keywords_score c resp + 20/100 * references_score c resp +
       10/100 * traits_score t resp) / (95/100) := by
    have w1 : DEFAULT_WEIGHTS "sections" = 35/100 := rfl
    have w2 : DEFAULT_WEIGHTS "assumptions" = 10/100 := rfl
    have w3 : DEFAULT_WEIGHTS "keywords" = 20/100 := rfl
    have w4 : DEFAULT_WEIGHTS "references" = 20/100 := rfl
    have w5 : DEFAULT_WEIGHTS "traits" = 10/100 := rfl
    unfold aggregate_score case_metrics
    simp only [List.append_nil, List.foldl_cons, List.foldl_nil, w1, w2, w3, w4, w5]
    norm_num
  refine ⟨by rw [hr]; rfl, hformula, ?_⟩
  rw [hformula]
  have b1 := sections_score_bounds t resp
  have b2 := assumptions_score_bounds t resp
  have b3 := keywords_score_bounds c resp
  have b4 := references_score_bounds c resp
  have b5 := traits_score_bounds t resp
  rw [div_le_one (by norm_num)]
  linarith [b1.1, b1.2, b2.1, b2.2, b3.1, b3.2, b4.1, b4.2, b5.1, b5.2]

/-- C1 witness: the amended theorem applied at the concrete all-empty
case, where the weighted score is exactly 1.0. -/
theorem no_script_weighted_score_witness :
    psTruthy caseEmpty.preferred_script = false ∧
    (okD dummyCaseResult
        (score_case caseEmpty templEmpty (some "hello") (8/10) false envAbsent jlNone)).score
      = round4 (aggregate_score (case_metrics caseEmpty templEmpty "hello" none)) ∧
    aggregate_score (case_metrics caseEmpty templEmpty "hello" none) ≤ 1 := by
  have h := no_script_weighted_score caseEmpty templEmpty "hello" (8/10) false envAbsent jlNone
    (okD dummyCaseResult
      (score_case caseEmpty templEmpty (some "hello") (8/10) false envAbsent jlNone))
    (by decide) (by with_unfolding_all rfl)
  exact ⟨by decide, h.1, h.2.2⟩

/-- C3: for a case with a response, the final pass verdict equals
(weighted score at or above the per-case minimum) AND (empty hard-fail
reason list); in particular any case carrying the hard-fail reason
preferred_script_numeric_mismatch has passed = false no matter how high
the weighted score is. -/
theorem passed_is_threshold_and_no_hard_fail (c : Case) (t : Template) (resp : String)
    (m : ℚ) (allow : Bool) (env : ScriptEnv) (jl : String → Option Json)
    (r : CaseResult) (q : ℚ)
    (h1 : score_case c t (some resp) m allow env jl = Except.ok r)
    (h2 : case_raw_score c t resp env jl = Except.ok q) :
    r.passed = (decide (m ≤ q) && r.hard_fail_reasons.isEmpty) ∧
    ("preferred_script_numeric_mismatch" ∈ r.hard_fail_reasons → r.passed = false) := by
  have h1b : (match script_eval c resp env jl with
      | Except.error e => Except.error e
      | Except.ok scriptPart => Except.ok (score_case_scored c t resp m scriptPart))
      = Except.ok r := h1
  have h2b : (match script_eval c resp env jl with
      | Except.error e => Except.error e
      | Except.ok scriptPart => Except.ok (aggregate_score (case_metrics c t resp scriptPart)))
      = Except.ok q := h2
  cases hse : script_eval c resp env jl with
  | error e =>
    rw [hse] at h1b
    exact absurd h1b (by simp)
  | ok sp =>
    rw [hse] at h1b h2b
    injection h1b with hr
    injection h2b with hq
    subst hr
    have hp : (score_case_scored c t resp m sp).passed
        = (decide (m ≤ aggregate_score (case_metrics c t resp sp)) &&
           (score_case_scored c t resp m sp).hard_fail_reasons.isEmpty) := rfl
    constructor
    · rw [hp, hq]
    · intro hmem
      have hne : (score_case_scored c t resp m sp).hard_fail_reasons ≠ [] :=
        List.ne_nil_of_mem hmem
      have hfe : (score_case_scored c t resp m sp).hard_fail_reasons.isEmpty = false := by
        cases hl : (score_case_scored c t resp m sp).hard_fail_reasons with
        | nil => exact absurd hl hne
        | cons a l => rfl
      rw [hp, hfe, Bool.and_false]

/-- C3 witness: a case whose only failing check is the script numeric
validation (the script file does not exist) has weighted score 0.95 at or
above the 0.80 minimum, yet passed = false through the hard-fail reason. -/
theorem passed_is_threshold_witness :
    ((okD dummyCaseResult
        (score_case caseScripted templEmpty (some "hello") (8/10) true envAbsent jlNone)).passed
      = (decide ((8/10 : ℚ) ≤ okD 0 (case_raw_score caseScripted templEmpty "hello" envAbsent jlNone)) &&
         (okD dummyCaseResult
           (score_case caseScripted templEmpty (some "hello") (8/10) true envAbsent jlNone)).hard_fail_reasons.isEmpty)
    ∧ ("preferred_script_numeric_mismatch" ∈
         (okD dummyCaseResult
           (score_case caseScripted templEmpty (some "hello") (8/10) true envAbsent jlNone)).hard_fail_reasons →
        (okD dummyCaseResult
          (score_case caseScripted templEmpty (some "hello") (8/10) true envAbsent jlNone)).passed = false))
    ∧ okD 0 (case_raw_score caseScripted templEmpty "hello" envAbsent jlNone) = 19/20
    ∧ (okD dummyCaseResult
        (score_case caseScripted templEmpty (some "hello") (8/10) true envAbsent jlNone)).hard_fail_reasons
      = ["preferred_script_numeric_mismatch"]
    ∧ (okD dummyCaseResult
        (score_case caseScripted templEmpty (some "hello") (8/10) true envAbsent jlNone)).passed = false := by
  refine ⟨?_, ?_, ?_, ?_⟩
  · exact passed_is_threshold_and_no_hard_fail caseScripted templEmpty "hello" (8/10) true
      envAbsent jlNone
      (okD dummyCaseResult
        (score_case caseScripted templEmpty (some "hello") (8/10) true envAbsent jlNone))
      (okD 0 (case_raw_score caseScripted templEmpty "hello" envAbsent jlNone))
      (by with_unfolding_all rfl) (by with_unfolding_all rfl)
  · with_unfolding_all decide
  · with_unfolding_all decide
  · with_unfolding_all decide

/-- C4: a case without a response scores 0 and does not pass; it is
skipped (with no hard-fail reasons) exactly when missing responses are
tolerated, and otherwise carries the single hard-fail reason
missing_response; and a skipped case result counts in neither
cases_passed nor the suite-score denominator (cases_evaluated). -/
theorem missing_response_skips (c : Case) (t : Template) (m : ℚ) (allow : Bool)
    (env : ScriptEnv) (jl : String → Option Json)
    (rs1 rs2 : List CaseResult) (r : CaseResult) (hr : r.skipped = true) :
    (∀ res, score_case c t none m allow env jl = Except.ok res →
       res.score = 0 ∧ res.passed = false ∧ res.skipped = allow ∧
       res.hard_fail_reasons = (if allow then [] else ["missing_response"]))
    ∧ isOkE (score_case c t none m allow env jl) = true
    ∧ (summarize (rs1 ++ r :: rs2)).cases_evaluated = (summarize (rs1 ++ rs2)).cases_evaluated
    ∧ (summarize (rs1 ++ r :: rs2)).cases_passed = (summarize (rs1 ++ rs2)).cases_passed
    ∧ (summarize (rs1 ++ r :: rs2)).suite_score = (summarize (rs1 ++ rs2)).suite_score := by
  have hfilter : (rs1 ++ r :: rs2).filter (fun item => !item.skipped)
      = (rs1 ++ rs2).filter (fun item => !item.skipped) := by
    rw [List.filter_append, List.filter_append, List.filter_cons]
    simp [hr]
  refine ⟨?_, rfl, ?_, ?_, ?_⟩
  · intro res h
    simp only [score_case] at h
    injection h with hres
    rw [← hres]
    refine ⟨rfl, rfl, rfl, ?_⟩
    cases allow <;> rfl
  · simp only [summarize, hfilter]
  · simp only [summarize, hfilter]
  · simp only [summarize, hfilter]

/-- C4 witness: the theorem applied to a tolerated missing response and
to a concrete result list containing one skipped case. -/
theorem missing_response_skips_witness :
    crSkipped.skipped = true
    ∧ (∀ res, score_case caseEmpty templEmpty none (8/10) true envAbsent jlNone = Except.ok res →
         res.score = 0 ∧ res.passed = false ∧ res.skipped = true ∧
         res.hard_fail_reasons = (if true then [] else ["missing_response"]))
    ∧ (summarize ([crPassing] ++ crSkipped :: [])).cases_passed
        = (summarize ([crPassing] ++ [])).cases_passed
    ∧ (summarize ([crPassing] ++ crSkipped :: [])).suite_score
        = (summarize ([crPassing] ++ [])).suite_score := by
  refine ⟨rfl, ?_, ?_, ?_⟩
  · exact (missing_response_skips caseEmpty templEmpty (8/10) true envAbsent jlNone
      [crPassing] [] crSkipped rfl).1
  · exact (missing_response_skips caseEmpty templEmpty (8/10) true envAbsent jlNone
      [crPassing] [] crSkipped rfl).2.2.2.1
  · exact (missing_response_skips caseEmpty templEmpty (8/10) true envAbsent jlNone
      [crPassing] [] crSkipped rfl).2.2.2.2

/-- C5: the tolerance window max(atol, abs(expected)*rtol) is clamped
nonnegative whatever raw atol/rtol the rule carries, so a response whose
extracted numeric sequence contains the expected value exactly always
matches the rule. -/
theorem exact_value_always_matches (atolRaw rtolRaw expected : ℚ) (resp : String)
    (h : expected ∈ _extract_numbers resp) :
    0 ≤ scriptTol atolRaw rtolRaw expected ∧
    scriptHit atolRaw rtolRaw expected (_extract_numbers resp) = true := by
  have htol : 0 ≤ scriptTol atolRaw rtolRaw expected := by
    unfold scriptTol
    exact le_trans (le_max_left 0 atolRaw) (le_max_left _ _)
  refine ⟨htol, ?_⟩
  unfold scriptHit
  rw [List.any_eq_true]
  refine ⟨expected, h, ?_⟩
  rw [decide_eq_true_eq]
  simpa [sub_self, abs_zero] using htol

/-- C5 witness: with both raw tolerances negative (clamped to zero), the
exact value 12.5 extracted from the response still matches. -/
theorem exact_value_always_matches_witness :
    ((25/2 : ℚ) ∈ _extract_numbers "value 12.5 ok") ∧
    0 ≤ scriptTol (-1) (-1) (25/2) ∧
    scriptHit (-1) (-1) (25/2) (_extract_numbers "value 12.5 ok") = true := by
  have hmem : (25/2 : ℚ) ∈ _extract_numbers "value 12.5 ok" := by
    with_unfolding_all decide
  have h := exact_value_always_matches (-1) (-1) (25/2) "value 12.5 ok" hmem
  exact ⟨hmem, h.1, h.2⟩

/-- C6: raising the raw rtol or atol of an extract rule (everything else
fixed) widens the tolerance window monotonically, so a matched rule can
never become unmatched. -/
theorem tolerance_monotone (a a2 rt rt2 e : ℚ) (nums : List ℚ)
    (ha : a ≤ a2) (hrt : rt ≤ rt2) :
    scriptTol a rt e ≤ scriptTol a2 rt2 e ∧
    (scriptHit a rt e nums = true → scriptHit a2 rt2 e nums = true) := by
  have htol : scriptTol a rt e ≤ scriptTol a2 rt2 e := by
    unfold scriptTol
    apply max_le_max
    · exact max_le_max (le_refl 0) ha
    · exact mul_le_mul_of_nonneg_left (max_le_max (le_refl 0) hrt) (abs_nonneg e)
  refine ⟨htol, ?_⟩
  intro hhit
  unfold scriptHit at hhit ⊢
  rw [List.any_eq_true] at hhit ⊢
  obtain ⟨v, hv, hdec⟩ := hhit
  refine ⟨v, hv, ?_⟩
  rw [decide_eq_true_eq] at hdec ⊢
  exact le_trans hdec htol

/-- C6 witness: widening (atol, rtol) from (0, 0) to (1, 1/100) keeps the
match of the exact value 10. -/
theorem tolerance_monotone_witness :
    scriptTol 0 0 10 ≤ scriptTol 1 (1/100) 10 ∧
    (scriptHit 0 0 10 [10] = true → scriptHit 1 (1/100) 10 [10] = true) :=
  tolerance_monotone 0 1 0 (1/100) 10 [10] (by norm_num) (by norm_num)

/-- C9: a ratio with non-positive denominator is defined to be 1.0, so a
case with a response whose requirement list is empty (sections, keywords,
references or traits) gets score exactly 1.0 and a passing flag on the
corresponding check. -/
theorem empty_requirements_score_one (c : Case) (t : Template) (resp : String) :
    (∀ (n : ℚ) (d : Int), d ≤ 0 → _safe_ratio n d = 1)
    ∧ (t.required_sections = [] → sections_score t resp = 1 ∧ sections_pass t resp = true)
    ∧ (c.required_keywords = [] → keywords_score c resp = 1 ∧ keywords_pass c resp = true)
    ∧ (c.required_references = [] → references_score c resp = 1 ∧ references_pass c resp = true)
    ∧ (t.required_traits = [] → traits_score t resp = 1 ∧ traits_pass t resp = true) := by
  refine ⟨?_, ?_, ?_, ?_, ?_⟩
  · intro n d hd
    unfold _safe_ratio
    rw [if_pos hd]
  · intro h
    unfold sections_score sections_pass sections_missing find_missing_sections
    rw [h]
    exact ⟨by simp [_safe_ratio], by simp⟩
  · intro h
    unfold keywords_score keywords_pass keywords_missing
    rw [h]
    exact ⟨by simp [_safe_ratio], by simp⟩
  · intro h
    unfold references_score references_pass references_missing
    rw [h]
    exact ⟨by simp [_safe_ratio], by simp⟩
  · intro h
    unfold traits_score traits_pass missing_traits check_traits
    rw [h]
    exact ⟨by simp [_safe_ratio], by simp⟩

/-- C9 witness: the theorem applied at a case and template with all
requirement lists empty, plus the ratio clause at a negative denominator. -/
theorem empty_requirements_score_one_witness :
    _safe_ratio 5 (-2) = 1
    ∧ sections_score templEmpty "x" = 1 ∧ sections_pass templEmpty "x" = true
    ∧ keywords_score caseEmpty "x" = 1 ∧ keywords_pass caseEmpty "x" = true
    ∧ references_score caseEmpty "x" = 1 ∧ references_pass caseEmpty "x" = true
    ∧ traits_score templEmpty "x" = 1 ∧ traits_pass templEmpty "x" = true := by
  have h := empty_requirements_score_one caseEmpty templEmpty "x"
  have h2 := h.2.1 rfl
  have h3 := h.2.2.1 rfl
  have h4 := h.2.2.2.1 rfl
  have h5 := h.2.2.2.2 rfl
  exact ⟨h.1 5 (-2) (by norm_num), h2.1, h2.2, h3.1, h3.2, h4.1, h4.2, h5.1, h5.2⟩

/-- C7 counterexample: a 가정 section holding a table header and a
separator row but ZERO data rows does not return 0 as the claim demands:
the table branch needs at least three non-blank lines, so the non-blank
fallback counts the header and separator, giving 2. -/
theorem count_assumptions_table_zero_rows :
    count_assumptions "## 가정\n| A | B |\n| --- | --- |" = 2 ∧
    (pyLStrip "| A | B |").startsWith "|" = true ∧
    tableSepMatch "| --- | --- |" = true := by
  refine ⟨?_, ?_, ?_⟩ <;> with_unfolding_all decide

/-- C7 amended: when the 가정 section body has non-blank lines consisting
of a pipe-prefixed header, a separator row, and N at least 1 pipe-prefixed
data rows, count_assumptions returns exactly N, independent of everything
else in the response (for N = 0 the fallback counts the two non-data
lines instead). -/
theorem count_assumptions_table (text : String) (b header sep : String) (rows : List String)
    (hget : dictGet (parse_sections text) "가정" = some b)
    (hfilter : ((splitLines (pyStrip b)).map pyRStrip).filter (fun l => !(pyStrip l == ""))
        = header :: sep :: rows)
    (hheader : (pyLStrip header).startsWith "|" = true)
    (hsep : tableSepMatch sep = true)
    (hrows : ∀ r ∈ rows, (pyLStrip r).startsWith "|" = true)
    (hne : rows ≠ []) :
    count_assumptions text = rows.length := by
  have hlen0 : 0 < rows.length := List.length_pos.mpr hne
  have htc : _count_table_rows ((splitLines (pyStrip b)).map pyRStrip) = rows.length := by
    unfold _count_table_rows
    rw [hfilter]
    have hlen : ¬((header :: sep :: rows).length < 3) := by
      simp only [List.length_cons]
      omega
    rw [if_neg hlen]
    simp only [List.headD_cons, hheader, Bool.not_true, Bool.false_eq_true, if_false]
    have hgetd : (header :: sep :: rows).getD 1 "" = sep := rfl
    rw [hgetd, hsep]
    simp only [Bool.not_true, Bool.false_eq_true, if_false]
    have hdrop : (header :: sep :: rows).drop 2 = rows := rfl
    rw [hdrop]
    exact List.countP_eq_length.mpr (fun r hr => hrows r hr)
  have hbody : (pyStrip b == "") = false := by
    by_contra hcon
    have hb2 : pyStrip b = "" := by
      cases hx : (pyStrip b == "") with
      | false => exact absurd hx hcon
      | true => exact beq_iff_eq.mp hx
    rw [hb2] at hfilter
    have hnilf : ((splitLines "").map pyRStrip).filter (fun l => !(pyStrip l == "")) = [] := rfl
    rw [hnilf] at hfilter
    exact List.noConfusion hfilter
  unfold count_assumptions
  rw [hget]
  show assumption_body_count b = rows.length
  simp only [assumption_body_count, hbody, Bool.false_eq_true, if_false, htc]
  rw [if_pos hlen0]

/-- C7 witness: a response with a two-data-row 가정 table and unrelated
list content elsewhere counts exactly 2 assumptions. -/
theorem count_assumptions_table_witness :
    dictGet (parse_sections tableResponse) "가정"
      = some "| n | v |\n|---|---|\n| 1 | 2 |\n| 3 | 4 |"
    ∧ count_assumptions tableResponse = 2 := by
  have hget : dictGet (parse_sections tableResponse) "가정"
      = some "| n | v |\n|---|---|\n| 1 | 2 |\n| 3 | 4 |" := by
    with_unfolding_all decide
  have h := count_assumptions_table tableResponse
    "| n | v |\n|---|---|\n| 1 | 2 |\n| 3 | 4 |"
    "| n | v |" "|---|---|" ["| 1 | 2 |", "| 3 | 4 |"] hget
    (by with_unfolding_all decide) (by with_unfolding_all decide)
    (by with_unfolding_all decide) (by with_unfolding_all decide)
    (by decide)
  exact ⟨hget, by simpa using h⟩

/-- C8 counterexample: _canonical_section removes the FIRST occurrence of
the marker anywhere in the required name, not only a leading prefix.  For
the required name containing an interior marker, the code finds the
heading and reports nothing missing, while the claim (leading-prefix
canonicalization, find_missing_sections_spec) would report it missing. -/
theorem canonical_section_not_leading_only :
    find_missing_sections "## A  B\nx" ["A ## B"] = [] ∧
    find_missing_sections_spec "## A  B\nx" ["A ## B"] = ["A ## B"] ∧
    _canonical_section "A ## B" = "A  B" ∧
    _canonical_section_spec "A ## B" = "A ## B" := by
  refine ⟨?_, ?_, ?_, ?_⟩ <;> with_unfolding_all decide

/-- C8 amended: find_missing_sections returns the code canonical forms
(first occurrence of the marker removed anywhere, then trimmed) of
exactly those required names whose code canonical form is absent from the
stripped parsed level-2 heading names. -/
theorem find_missing_sections_members (text : String) (required : List String) (x : String) :
    x ∈ find_missing_sections text required ↔
    ∃ r, r ∈ required ∧ x = _canonical_section r ∧
      ((parse_sections text).map (fun p => pyStrip p.1)).contains (_canonical_section r)
        = false := by
  unfold find_missing_sections
  simp only [List.mem_map, List.mem_filter]
  constructor
  · rintro ⟨r, ⟨hr, hc⟩, hx⟩
    refine ⟨r, hr, hx.symm, ?_⟩
    simpa using hc
  · rintro ⟨r, hr, hx, hc⟩
    refine ⟨r, ⟨hr, ?_⟩, hx.symm⟩
    rw [hc]
    rfl

theorem evaluate_isOk_of_completed (resp ps : String) (val : List (String × Json))
    (env : ScriptEnv) (jl : String → Option Json) (rc : Int) (out err : String)
    (h : env.outcome = RunOutcome.completed rc out err) :
    isOkE (evaluate_script_numeric_checks resp ps val env jl) = true := by
  unfold evaluate_script_numeric_checks
  rw [h]
  repeat' split
  all_goals first | rfl | simp_all

theorem evaluate_zero_score_on_nonzero_exit (resp ps : String) (val : List (String × Json))
    (env : ScriptEnv) (jl : String → Option Json) (rc : Int) (out err : String)
    (h : env.outcome = RunOutcome.completed rc out err) (hrc : rc ≠ 0) :
    ∀ sc p dd, evaluate_script_numeric_checks resp ps val env jl = Except.ok (sc, p, dd) →
      sc = 0 ∧ p = false := by
  intro sc p dd hok
  unfold evaluate_script_numeric_checks at hok
  rw [h] at hok
  repeat' split at hok
  all_goals simp_all

theorem runOneScript_isOk (s : String) (env : ScriptEnv) (jl : String → Option Json)
    (h : env.outcome ≠ RunOutcome.timeout) :
    isOkE (runOneScript s env jl) = true := by
  cases houtcome : env.outcome with
  | timeout => exact absurd houtcome h
  | completed rc out err =>
    unfold runOneScript
    rw [houtcome]
    repeat' split
    all_goals first | rfl | simp_all

theorem collectScriptResults_isOk (scripts : List String) (benv : String → ScriptEnv)
    (jl : String → Option Json) (h : ∀ s, (benv s).outcome ≠ RunOutcome.timeout) :
    isOkE (collectScriptResults scripts benv jl) = true := by
  induction scripts with
  | nil => rfl
  | cons s rest ih =>
    unfold collectScriptResults
    have h1 := runOneScript_isOk s (benv s) jl (h s)
    cases hr : runOneScript s (benv s) jl with
    | error e => rw [hr] at h1; exact absurd h1 (by simp [isOkE])
    | ok r =>
      cases hc : collectScriptResults rest benv jl with
      | error e => rw [hc] at ih; exact absurd ih (by simp [isOkE])
      | ok rs => rfl

theorem execute_isOk (cs : List Case) (benv : String → ScriptEnv)
    (jl : String → Option Json) (h : ∀ s, (benv s).outcome ≠ RunOutcome.timeout) :
    isOkE (execute_preferred_scripts cs benv jl) = true := by
  unfold execute_preferred_scripts
  have h1 := collectScriptResults_isOk (preferredScripts cs) benv jl h
  cases hc : collectScriptResults (preferredScripts cs) benv jl with
  | error e => rw [hc] at h1; exact absurd h1 (by simp [isOkE])
  | ok rs => rfl

theorem runOneScript_failed_on_nonzero_exit (s : String) (env : ScriptEnv)
    (jl : String → Option Json) (rc : Int) (out err : String)
    (h : env.outcome = RunOutcome.completed rc out err) (hrc : rc ≠ 0) :
    ∀ res, runOneScript s env jl = Except.ok res → res.passed = false := by
  intro res hok
  unfold runOneScript at hok
  rw [h] at hok
  repeat' split at hok
  all_goals try simp_all
  all_goals rw [← hok]

/-- C2 amended: a completed subprocess (any exit status) never escapes
evaluate_script_numeric_checks or execute_preferred_scripts as an
exception, and a non-zero exit is converted into a failed check/result
(score 0, passed = false); a TIMEOUT, however, raises TimeoutExpired,
which both functions propagate to the caller (subprocess.run is invoked
with check=False but without a try block, so only the top-level main
handler catches it). -/
theorem subprocess_failures_contained
    (resp ps : String) (val : List (String × Json)) (env : ScriptEnv)
    (jl : String → Option Json) (rc : Int) (out err : String)
    (h : env.outcome = RunOutcome.completed rc out err) :
    isOkE (evaluate_script_numeric_checks resp ps val env jl) = true
    ∧ (rc ≠ 0 → ∀ sc p dd,
        evaluate_script_numeric_checks resp ps val env jl = Except.ok (sc, p, dd) →
        sc = 0 ∧ p = false)
    ∧ (∀ (cs : List Case) (benv : String → ScriptEnv),
        (∀ s, (benv s).outcome ≠ RunOutcome.timeout) →
        isOkE (execute_preferred_scripts cs benv jl) = true)
    ∧ (∀ (s : String) (env2 : ScriptEnv) (rc2 : Int) (out2 err2 : String),
        env2.outcome = RunOutcome.completed rc2 out2 err2 → rc2 ≠ 0 →
        ∀ res, runOneScript s env2 jl = Except.ok res → res.passed = false) := by
  refine ⟨evaluate_isOk_of_completed resp ps val env jl rc out err h,
    fun hrc => evaluate_zero_score_on_nonzero_exit resp ps val env jl rc out err h hrc,
    fun cs benv hb => execute_isOk cs benv jl hb,
    fun s env2 rc2 out2 err2 h2 hrc2 =>
      runOneScript_failed_on_nonzero_exit s env2 jl rc2 out2 err2 h2 hrc2⟩

/-- C2 counterexample: when the subprocess times out, BOTH the per-case
numeric validation and the batch health-check propagate the exception to
their caller (modelled as Except.error), contradicting the claim that a
timeout is converted into a failed check/result. -/
theorem subprocess_timeout_raises :
    evaluate_script_numeric_checks "resp 3" "s.py" validationA envTimeout jlNone
      = Except.error ()
    ∧ runOneScript "s.py" envTimeout jlNone = Except.error ()
    ∧ execute_preferred_scripts [caseScripted] (fun _ => envTimeout) jlNone
      = Except.error () := by
  refine ⟨?_, ?_, ?_⟩ <;> with_unfolding_all rfl

/-- C2 witness: the amended theorem at a concrete environment whose
subprocess exits with status 1. -/
theorem subprocess_failures_contained_witness :
    envExitOne.outcome = RunOutcome.completed 1 "" " boom "
    ∧ isOkE (evaluate_script_numeric_checks "resp 3" "s.py" validationA envExitOne jlNone) = true
    ∧ (∀ sc p dd,
        evaluate_script_numeric_checks "resp 3" "s.py" validationA envExitOne jlNone
          = Except.ok (sc, p, dd) → sc = 0 ∧ p = false)
    ∧ isOkE (execute_preferred_scripts [caseScripted] (fun _ => envExitOne) jlNone) = true := by
  have h := subprocess_failures_contained "resp 3" "s.py" validationA envExitOne jlNone
    1 "" " boom " rfl
  refine ⟨rfl, h.1, h.2.1 (by decide), ?_⟩
  exact h.2.2.1 [caseScripted] (fun _ => envExitOne)
    (fun s hcon => RunOutcome.noConfusion hcon)
